import Mathlib

/-!
Verification development for the TDengine MCP server
(`src/tdengine_mcp_server/server.py`).

The Python source is shallowly embedded: the database driver is an oracle
mapping a SQL string to either an exception message or a raw response;
every tool is a function threading an explicit list of the SQL statements
that were actually submitted to the driver (so "the database was never
contacted" is expressible).  Python dictionaries are association lists in
insertion order, Python values are the inductive `PyObj`, and Python
exceptions are the `Except String` error channel carrying `str(e)`.
-/

namespace TdengineMcp

/-- Python runtime values as they occur in driver responses and in the
dictionaries the tools build. -/
inductive PyObj where
  | str : String → PyObj
  | int : Int → PyObj
  | bool : Bool → PyObj
  | none : PyObj
  | list : List PyObj → PyObj
  | dict : List (PyObj × PyObj) → PyObj

mutual

/-- Python equality on values (used for dictionary keys). -/
def pyBEq : PyObj → PyObj → Bool
  | .str a, .str b => a == b
  | .int a, .int b => a == b
  | .bool a, .bool b => a == b
  | .none, .none => true
  | .list a, .list b => pyBEqList a b
  | .dict a, .dict b => pyBEqPairs a b
  | _, _ => false

/-- Elementwise `pyBEq` on lists. -/
def pyBEqList : List PyObj → List PyObj → Bool
  | [], [] => true
  | a :: as, b :: bs => pyBEq a b && pyBEqList as bs
  | _, _ => false

/-- Elementwise `pyBEq` on key-value pair lists. -/
def pyBEqPairs : List (PyObj × PyObj) → List (PyObj × PyObj) → Bool
  | [], [] => true
  | (k, v) :: as, (k2, v2) :: bs => pyBEq k k2 && pyBEq v v2 && pyBEqPairs as bs
  | _, _ => false

end

/-- Python truthiness (`bool(x)`). -/
def pyTruthy : PyObj → Bool
  | .str s => !(s == "")
  | .int n => !(n == 0)
  | .bool b => b
  | .none => false
  | .list l => !l.isEmpty
  | .dict l => !l.isEmpty

/-- Python `str()` conversion as used by f-string interpolation.  Only the
string case is exercised by the source's data flow; the other cases are a
total stand-in (Python repr of containers is not modelled). -/
def pyStr : PyObj → String
  | .str s => s
  | .int n => toString n
  | .bool true => "True"
  | .bool false => "False"
  | .none => "None"
  | .list _ => "<list>"
  | .dict _ => "<dict>"

/-- Lookup in a Python-keyed dictionary (`d.get(k)`). -/
def pyDictGet (entries : List (PyObj × PyObj)) (k : PyObj) : Option PyObj :=
  (entries.find? (fun p => pyBEq p.1 k)).map Prod.snd

/-- Assignment `d[k] = v` in a Python-keyed dictionary: update in place,
or append preserving insertion order. -/
def dictSetP (m : List (PyObj × PyObj)) (k : PyObj) (v : PyObj) :
    List (PyObj × PyObj) :=
  if m.any (fun p => pyBEq p.1 k) then
    m.map (fun p => if pyBEq p.1 k then (k, v) else p)
  else m ++ [(k, v)]

/-- Assignment `d[k] = v` in a string-keyed Python dictionary. -/
def dictSet (m : List (String × PyObj)) (k : String) (v : PyObj) :
    List (String × PyObj) :=
  if m.any (fun p => p.1 == k) then
    m.map (fun p => if p.1 == k then (k, v) else p)
  else m ++ [(k, v)]

/-- Lookup `d[k]` / `d.get(k)` in a string-keyed Python dictionary. -/
def dictGet (m : List (String × PyObj)) (k : String) : Option PyObj :=
  (m.find? (fun p => p.1 == k)).map Prod.snd

/-- Embed a string-keyed dictionary as a `PyObj`. -/
def strDict (l : List (String × PyObj)) : PyObj :=
  .dict (l.map (fun p => (PyObj.str p.1, p.2)))

/-- The raw response of the REST driver (`RestClient.sql`): a dictionary
whose fields may each be absent, read by `result.get(...)`. -/
structure RawResponse where
  status : Option String := none
  head : Option (List String) := none
  column_meta : Option (List (List PyObj)) := none
  data : Option (List (List PyObj)) := none
  rows : Option Int := none

/-- `TaosSqlResponse`, the canonical result shape built by
`TAOSClient.execute_sql`. -/
structure TaosSqlResponse where
  status : String
  head : List String
  column_meta : List (List PyObj)
  data : List (List PyObj)
  rows : Int

/-- The database connection as an oracle: a submitted statement either
raises (error message) or yields a raw response. -/
abbrev Driver := String → Except String RawResponse

/-- Tool computations: thread the list of statements submitted to the
driver so far, and either raise (Python exception message) or return. -/
abbrev DbM (α : Type) := List String → Except String α × List String

/-- The whitespace characters removed by Python `str.strip()` (the common
ASCII whitespace set; exotic Unicode whitespace is not modelled). -/
def pyIsSpace (c : Char) : Bool :=
  c == ' ' || c == '\t' || c == '\n' || c == '\r' || c == '\x0b' || c == '\x0c'

/-- Python `str.strip()` on a character list. -/
def stripChars (l : List Char) : List Char :=
  ((l.dropWhile pyIsSpace).reverse.dropWhile pyIsSpace).reverse

/-- Python `str.startswith(p)` on character lists. -/
def startsWithChars : List Char → List Char → Bool
  | _, [] => true
  | [], _ :: _ => false
  | a :: as, b :: bs => a == b && startsWithChars as bs

/-- Python `str.upper()` on a character list (ASCII; the deny-list
keywords are all ASCII). -/
def upperChars (l : List Char) : List Char :=
  l.map Char.toUpper

/-- Python `str.upper()` on a string. -/
def upperStr (s : String) : String :=
  String.mk (upperChars s.toList)

/-- `NOT_ALLOWED_TAOS_SQL`: the deny-list of statement-leading keywords. -/
def NOT_ALLOWED_TAOS_SQL : List String :=
  ["ALTER", "CREATE", "DELETE", "DROP", "INSERT", "UPDATE", "TRIM",
   "FLUSH", "BALANCE", "REDISTRIBUTE", "GRANT", "REVOKE", "RESET",
   "KILL", "COMPACT"]

/-- The fixed user-facing security message of the statement guard. -/
def securityMessage : String :=
  "Security restrictions: Only read-only statements such as queries are allowed to be executed. All other operations are prohibited."

/-- `validate_sql_stmt`: strip, uppercase, and reject statements starting
with any denied keyword (`str.startswith` on the tuple is an any-of). -/
def validate_sql_stmt (sql_stmt : String) : Except String Unit :=
  let stripped := stripChars sql_stmt.toList
  if NOT_ALLOWED_TAOS_SQL.any
      (fun kw => startsWithChars (upperChars stripped) kw.toList) then
    .error securityMessage
  else
    .ok ()

/-- Build the `TaosSqlResponse` from a raw driver response, defaulting
each absent field exactly as `TAOSClient.execute_sql` does. -/
def mkResp (r : RawResponse) : TaosSqlResponse :=
  { status := r.status.getD ""
    head := r.head.getD []
    column_meta := r.column_meta.getD []
    data := r.data.getD []
    rows := r.rows.getD (-1) }

/-- `TAOSClient.execute_sql`: validate first (a rejected statement never
reaches the driver), then submit to the driver and normalize the
response; a driver exception is re-raised. -/
def execute_sql (d : Driver) (sql_stmt : String) : DbM TaosSqlResponse :=
  fun log =>
    match validate_sql_stmt sql_stmt with
    | .error e => (.error e, log)
    | .ok _ =>
      match d sql_stmt with
      | .error e => (.error e, log ++ [sql_stmt])
      | .ok r => (.ok (mkResp r), log ++ [sql_stmt])

/-- The `TaosSqlResponse` `TypedDict` viewed as the Python dictionary it
is at runtime (five keys, in construction order). -/
def respToDict (r : TaosSqlResponse) : PyObj :=
  .dict [(.str "status", .str r.status),
         (.str "head", .list (r.head.map PyObj.str)),
         (.str "column_meta", .list (r.column_meta.map PyObj.list)),
         (.str "data", .list (r.data.map PyObj.list)),
         (.str "rows", .int r.rows)]

/-- Python truthiness of an `Optional[str]` (`if s:`). -/
def truthyStr : Option String → Bool
  | Option.none => false
  | some s => !(s == "")

/-- Python truthiness of an `Optional[List[str]]` (`if l:`). -/
def truthyList : Option (List String) → Bool
  | Option.none => false
  | some l => !l.isEmpty

/-- Python truthiness of an `Optional[int]` (`if n:`). -/
def truthyOptInt : Option Int → Bool
  | Option.none => false
  | some n => !(n == 0)

/-- Extract an optional string (only read under a truthiness guard). -/
def optStr (o : Option String) : String := o.getD ""

/-- Extract an optional string list (only read under a truthiness guard). -/
def optList (o : Option (List String)) : List String := o.getD []

/-- The shared prologue `if db_name is None or db_name == "":
db_name = taos.database` — `cfg` is the connection's configured default
database. -/
def resolveDb (cfg : String) : Option String → String
  | Option.none => cfg
  | some s => if s == "" then cfg else s

/-- The shared target resolution `if table_name: ... elif stable_name:
... else: raise ValueError(...)`. -/
def resolve_target (dbn : String) (table_name stable_name : Option String) :
    Except String String :=
  if truthyStr table_name then .ok (dbn ++ "." ++ optStr table_name)
  else if truthyStr stable_name then .ok (dbn ++ "." ++ optStr stable_name)
  else .error "Either stable_name or table_name must be specified"

/-- `row[0]` on a Python list: raises `IndexError` when empty. -/
def pyHead : List PyObj → Except String PyObj
  | [] => .error "list index out of range"
  | v :: _ => .ok v

/-- The recurring pattern `X["data"][0][0] if X["data"] else dflt`.
The guard only protects the outer index: an empty first row still
raises `IndexError`. -/
def firstCellOr (data : List (List PyObj)) (dflt : PyObj) :
    Except String PyObj :=
  if data.isEmpty then .ok dflt
  else
    match data with
    | [] => .error "list index out of range"
    | row :: _ => pyHead row

/-- Indexing `v[0]` on a Python value. -/
def pyIndex0 : PyObj → Except String PyObj
  | .list (a :: _) => .ok a
  | .list [] => .error "list index out of range"
  | _ => .error "object is not subscriptable"

/-- The statement built by `test_table_exists` (note: no trailing
semicolon in the source). -/
def test_table_exists_sql (stable_name : String) : String :=
  "SHOW STABLES LIKE '" ++ stable_name ++ "'"

/-- `test_table_exists`: runs `SHOW STABLES LIKE '<name>'` and returns
`{stable_name: bool(result)}` where `result` is the whole
`TaosSqlResponse` dictionary. -/
def test_table_exists (d : Driver) (stable_name : String) :
    DbM (List (String × Bool)) := fun log =>
  match execute_sql d (test_table_exists_sql stable_name) log with
  | (.error e, l) => (.error e, l)
  | (.ok result, l) => (.ok [(stable_name, pyTruthy (respToDict result))], l)

/-- The statement built by `get_all_stables`. -/
def get_all_stables_sql (cfg : String) (db_name : Option String) : String :=
  "SHOW " ++ resolveDb cfg db_name ++ ".STABLES;"

/-- `get_all_stables`. -/
def get_all_stables (d : Driver) (cfg : String) (db_name : Option String) :
    DbM TaosSqlResponse := fun log =>
  execute_sql d (get_all_stables_sql cfg db_name) log

/-- The statement built by `get_field_infos`. -/
def get_field_infos_sql (cfg : String) (db_name : Option String)
    (stable_name : String) : String :=
  "DESCRIBE " ++ resolveDb cfg db_name ++ "." ++ stable_name ++ ";"

/-- `get_field_infos`. -/
def get_field_infos (d : Driver) (cfg : String) (db_name : Option String)
    (stable_name : String) : DbM TaosSqlResponse := fun log =>
  execute_sql d (get_field_infos_sql cfg db_name stable_name) log

/-- The statement built by `get_tag_infos`. -/
def get_tag_infos_sql (cfg : String) (db_name : Option String)
    (stable_name : String) : String :=
  "SHOW TAGS FROM " ++ resolveDb cfg db_name ++ "." ++ stable_name ++ ";"

/-- `get_tag_infos`. -/
def get_tag_infos (d : Driver) (cfg : String) (db_name : Option String)
    (stable_name : String) : DbM TaosSqlResponse := fun log =>
  execute_sql d (get_tag_infos_sql cfg db_name stable_name) log

/-- The statement built by `get_table_stats` (three-way branch on the
truthiness of `table_name` and `stable_name`). -/
def get_table_stats_sql (cfg : String)
    (db_name stable_name table_name : Option String) : String :=
  let dbn := resolveDb cfg db_name
  if truthyStr table_name then
    "SELECT COUNT(*) as row_count FROM " ++ dbn ++ "." ++ optStr table_name ++ ";"
  else if truthyStr stable_name then
    "SELECT COUNT(*) as row_count FROM " ++ dbn ++ "." ++ optStr stable_name ++ ";"
  else
    "SELECT stable_name, COUNT(*) as row_count FROM information_schema.ins_stables WHERE db_name='"
      ++ dbn ++ "' GROUP BY stable_name;"

/-- `get_table_stats`. -/
def get_table_stats (d : Driver) (cfg : String)
    (db_name stable_name table_name : Option String) :
    DbM TaosSqlResponse := fun log =>
  execute_sql d (get_table_stats_sql cfg db_name stable_name table_name) log

/-- The statement built by `get_latest_data` (or `MissingTarget`); the
`LIMIT` clause is appended unconditionally. -/
def get_latest_data_sql (cfg : String)
    (db_name stable_name table_name : Option String) (limit : Int) :
    Except String String :=
  match resolve_target (resolveDb cfg db_name) table_name stable_name with
  | .error e => .error e
  | .ok target =>
    .ok ("SELECT * FROM " ++ target ++ " ORDER BY ts DESC LIMIT "
      ++ toString limit ++ ";")

/-- `get_latest_data`: the `ValueError` for a missing target is raised
before any statement reaches the execution client. -/
def get_latest_data (d : Driver) (cfg : String)
    (db_name stable_name table_name : Option String) (limit : Int) :
    DbM TaosSqlResponse := fun log =>
  match get_latest_data_sql cfg db_name stable_name table_name limit with
  | .error e => (.error e, log)
  | .ok sql => execute_sql d sql log

/-- The statement of `get_data_by_time_range` before the optional limit
clause (the source's `sql` variable right before `if limit:`). -/
def time_range_base_sql (cfg : String)
    (db_name stable_name table_name : Option String)
    (start_time end_time : String) : Except String String :=
  match resolve_target (resolveDb cfg db_name) table_name stable_name with
  | .error e => .error e
  | .ok target =>
    .ok ("SELECT * FROM " ++ target ++ " WHERE ts >= '" ++ start_time
      ++ "' AND ts <= '" ++ end_time ++ "' ORDER BY ts")

/-- The statement built by `get_data_by_time_range`: `LIMIT` is appended
only when `limit` is truthy (`None`/`0` suppress it). -/
def get_data_by_time_range_sql (cfg : String)
    (db_name stable_name table_name : Option String)
    (start_time end_time : String) (limit : Option Int) :
    Except String String :=
  match time_range_base_sql cfg db_name stable_name table_name start_time end_time with
  | .error e => .error e
  | .ok sql0 =>
    let sql1 := if truthyOptInt limit then
        sql0 ++ " LIMIT " ++ toString (limit.getD 0)
      else sql0
    .ok (sql1 ++ ";")

/-- `get_data_by_time_range`. -/
def get_data_by_time_range (d : Driver) (cfg : String)
    (db_name stable_name table_name : Option String)
    (start_time end_time : String) (limit : Option Int) :
    DbM TaosSqlResponse := fun log =>
  match get_data_by_time_range_sql cfg db_name stable_name table_name
      start_time end_time limit with
  | .error e => (.error e, log)
  | .ok sql => execute_sql d sql log

/-- The statement built by `aggregate_query` (or `MissingTarget`):
select clause (window-start column prefixed when an interval is given),
time-range predicates, and the grouping clause where `PARTITION BY` is
prepended before the `INTERVAL` clause. -/
def aggregate_query_sql (cfg : String)
    (db_name stable_name table_name : Option String)
    (agg_function column_name : String) (interval : Option String)
    (group_by_tags : Option (List String))
    (start_time end_time : Option String) : Except String String :=
  match resolve_target (resolveDb cfg db_name) table_name stable_name with
  | .error e => .error e
  | .ok target =>
    let select0 := upperStr agg_function ++ "(" ++ column_name ++ ")"
    let select_clause := if truthyStr interval then "_wstart, " ++ select0 else select0
    let from_clause := target
    let where_conditions : List String :=
      (if truthyStr start_time then ["ts >= '" ++ optStr start_time ++ "'"] else [])
      ++ (if truthyStr end_time then ["ts <= '" ++ optStr end_time ++ "'"] else [])
    let where_clause :=
      if where_conditions.isEmpty then ""
      else " WHERE " ++ String.intercalate " AND " where_conditions
    let group_by_clause :=
      if truthyStr interval then " INTERVAL(" ++ optStr interval ++ ")" else ""
    let group_by_clause2 :=
      if truthyList group_by_tags then
        " PARTITION BY " ++ String.intercalate ", " (optList group_by_tags)
          ++ group_by_clause
      else group_by_clause
    .ok ("SELECT " ++ select_clause ++ " FROM " ++ from_clause ++ where_clause
      ++ group_by_clause2 ++ ";")

/-- `aggregate_query`. -/
def aggregate_query (d : Driver) (cfg : String)
    (db_name stable_name table_name : Option String)
    (agg_function column_name : String) (interval : Option String)
    (group_by_tags : Option (List String))
    (start_time end_time : Option String) : DbM TaosSqlResponse := fun log =>
  match aggregate_query_sql cfg db_name stable_name table_name agg_function
      column_name interval group_by_tags start_time end_time with
  | .error e => (.error e, log)
  | .ok sql => execute_sql d sql log

/-- The statement of `get_tag_values` before the optional limit clause. -/
def tag_values_base_sql (cfg : String) (db_name : Option String)
    (stable_name tag_name : String) : String :=
  "SELECT DISTINCT " ++ tag_name ++ " FROM " ++ resolveDb cfg db_name
    ++ "." ++ stable_name

/-- The statement built by `get_tag_values`: `LIMIT` is appended only
when `limit` is truthy. -/
def get_tag_values_sql (cfg : String) (db_name : Option String)
    (stable_name tag_name : String) (limit : Option Int) : String :=
  let sql0 := tag_values_base_sql cfg db_name stable_name tag_name
  let sql1 := if truthyOptInt limit then
      sql0 ++ " LIMIT " ++ toString (limit.getD 0)
    else sql0
  sql1 ++ ";"

/-- `get_tag_values`. -/
def get_tag_values (d : Driver) (cfg : String) (db_name : Option String)
    (stable_name tag_name : String) (limit : Option Int) :
    DbM TaosSqlResponse := fun log =>
  execute_sql d (get_tag_values_sql cfg db_name stable_name tag_name limit) log

/-- `analyze_performance`: three queries for a specific stable (time
range, record count, table count), or a one-query summary of all
stables; no internal exception handling. -/
def analyze_performance (d : Driver) (cfg : String)
    (db_name stable_name : Option String) : DbM PyObj := fun log =>
  let dbn := resolveDb cfg db_name
  if truthyStr stable_name then
    let sn := optStr stable_name
    match execute_sql d ("SELECT MIN(ts) as min_time, MAX(ts) as max_time FROM "
        ++ dbn ++ "." ++ sn ++ ";") log with
    | (.error e, l1) => (.error e, l1)
    | (.ok time_result, l1) =>
      let time_range : PyObj :=
        if time_result.data.isEmpty then .list [.none, .none]
        else .list (time_result.data.headD [])
      match execute_sql d ("SELECT COUNT(*) as total_records FROM "
          ++ dbn ++ "." ++ sn ++ ";") l1 with
      | (.error e, l2) => (.error e, l2)
      | (.ok count_result, l2) =>
        match firstCellOr count_result.data (.int 0) with
        | .error e => (.error e, l2)
        | .ok total_records =>
          match execute_sql d ("SELECT COUNT(*) as table_count FROM information_schema.ins_tables WHERE stable_name='"
              ++ sn ++ "' AND db_name='" ++ dbn ++ "';") l2 with
          | (.error e, l3) => (.error e, l3)
          | (.ok tables_result, l3) =>
            match firstCellOr tables_result.data (.int 0) with
            | .error e => (.error e, l3)
            | .ok table_count =>
              (.ok (.dict [(.str "time_range", time_range),
                           (.str "total_records", total_records),
                           (.str "table_count", table_count)]), l3)
  else
    match execute_sql d ("SELECT stable_name, COUNT(*) as table_count FROM information_schema.ins_tables WHERE db_name='"
        ++ dbn ++ "' GROUP BY stable_name;") log with
    | (.error e, l1) => (.error e, l1)
    | (.ok stables_result, l1) =>
      (.ok (.dict [(.str "stables_summary",
        if stables_result.data.isEmpty then .list []
        else .list (stables_result.data.map PyObj.list))]), l1)

/-- The per-column loop of `check_data_integrity`'s NULL check:
`row[0]` is read outside the inner `try` (an empty row raises), the
query and the cell extraction are inside it (`"Unable to check"`). -/
def null_check_loop (d : Driver) (dbn sn : String) :
    List (List PyObj) → List (PyObj × PyObj) → DbM (List (PyObj × PyObj))
  | [], acc => fun log => (.ok acc, log)
  | row :: rest, acc => fun log =>
    match row with
    | [] => (.error "list index out of range", log)
    | col_name :: _ =>
      if pyBEq col_name (.str "ts") then
        null_check_loop d dbn sn rest acc log
      else
        match execute_sql d ("SELECT COUNT(*) as null_count FROM " ++ dbn
            ++ "." ++ sn ++ " WHERE " ++ pyStr col_name ++ " IS NULL;") log with
        | (.error _, l1) =>
          null_check_loop d dbn sn rest
            (dictSetP acc col_name (.str "Unable to check")) l1
        | (.ok null_result, l1) =>
          match firstCellOr null_result.data (.int 0) with
          | .error _ =>
            null_check_loop d dbn sn rest
              (dictSetP acc col_name (.str "Unable to check")) l1
          | .ok v =>
            null_check_loop d dbn sn rest (dictSetP acc col_name v) l1

/-- The duplicate-timestamp step of `check_data_integrity` (its own
`try` turns a failure into an error string under the same key). -/
def dup_check_step (d : Driver) (dbn sn : String)
    (results : List (PyObj × PyObj)) : DbM PyObj := fun log =>
  match execute_sql d ("SELECT ts, COUNT(*) as dup_count FROM " ++ dbn ++ "."
      ++ sn ++ " GROUP BY ts HAVING COUNT(*) > 1 LIMIT 10;") log with
  | (.error e, l1) =>
    (.ok (.dict (dictSetP results (.str "duplicate_timestamps")
      (.str ("Error checking duplicates: " ++ e)))), l1)
  | (.ok dup_result, l1) =>
    (.ok (.dict (dictSetP results (.str "duplicate_timestamps")
      (.list (dup_result.data.map PyObj.list)))), l1)

/-- `check_data_integrity`. -/
def check_data_integrity (d : Driver) (cfg : String)
    (db_name : Option String) (stable_name : String)
    (check_nulls check_duplicates : Bool) : DbM PyObj := fun log =>
  let dbn := resolveDb cfg db_name
  match execute_sql d ("SELECT COUNT(*) as total_rows FROM " ++ dbn ++ "."
      ++ stable_name ++ ";") log with
  | (.error e, l1) => (.error e, l1)
  | (.ok total_result, l1) =>
    match firstCellOr total_result.data (.int 0) with
    | .error e => (.error e, l1)
    | .ok total =>
      let results : List (PyObj × PyObj) := [(.str "total_rows", total)]
      if check_nulls then
        match execute_sql d ("DESCRIBE " ++ dbn ++ "." ++ stable_name ++ ";") l1 with
        | (.error e, l2) => (.error e, l2)
        | (.ok describe_result, l2) =>
          match null_check_loop d dbn stable_name describe_result.data [] l2 with
          | (.error e, l3) => (.error e, l3)
          | (.ok null_counts, l3) =>
            let results := dictSetP results (.str "null_counts") (.dict null_counts)
            if check_duplicates then dup_check_step d dbn stable_name results l3
            else (.ok (.dict results), l3)
      else
        if check_duplicates then dup_check_step d dbn stable_name results l1
        else (.ok (.dict results), l1)

/-- The steps of `comprehensive_stable_analysis` inside the outer `try`.
An error outcome carries the partially built result dictionary, since a
step that escapes leaves the sections already assigned in place.  Steps
2, 6, 7 and 8 carry their own `try`/`except`; steps 1, 3, 4 and 5 do
not, so their exceptions escape to the outer handler.  The two time
strings stand for the `datetime.now()`-derived window of step 7. -/
def comp_steps (d : Driver) (cfg : String) (dbn_resolved : String)
    (stable_name : String)
    (include_sample_data : Bool) (days_back : Option Int)
    (start_str end_str : String) (acc0 : List (String × PyObj)) :
    List String →
      (Except (List (String × PyObj) × String) (List (String × PyObj)))
        × List String := fun log =>
  -- step 1: schema (unguarded)
  match get_field_infos d cfg (some dbn_resolved) stable_name log with
  | (.error e, l1) => (.error (acc0, e), l1)
  | (.ok schema_info, l1) =>
    let acc1 := dictSet acc0 "schema" (strDict
      [("columns", .list (schema_info.data.map PyObj.list)),
       ("column_count",
        .int (if schema_info.data.isEmpty then 0 else schema_info.data.length))])
    -- step 2: tags (guarded)
    let (tagsEntry, l2) :=
      match get_tag_infos d cfg (some dbn_resolved) stable_name l1 with
      | (.error e, l2) =>
        (strDict [("error", .str ("Could not retrieve tag info: " ++ e))], l2)
      | (.ok tag_info, l2) =>
        (strDict [("tag_columns", .list (tag_info.data.map PyObj.list)),
                  ("tag_count",
                   .int (if tag_info.data.isEmpty then 0 else tag_info.data.length))],
         l2)
    let acc2 := dictSet acc1 "tags" tagsEntry
    -- step 3: performance (unguarded)
    match analyze_performance d cfg (some dbn_resolved) (some stable_name) l2 with
    | (.error e, l3) => (.error (acc2, e), l3)
    | (.ok performance, l3) =>
      let acc3 := dictSet acc2 "performance" performance
      -- step 4: statistics (unguarded)
      match get_table_stats d cfg (some dbn_resolved) (some stable_name) Option.none l3 with
      | (.error e, l4) => (.error (acc3, e), l4)
      | (.ok stats, l4) =>
        let acc4 := dictSet acc3 "statistics" (respToDict stats)
        -- step 5: integrity (unguarded)
        match check_data_integrity d cfg (some dbn_resolved) stable_name true false l4 with
        | (.error e, l5) => (.error (acc4, e), l5)
        | (.ok integrity, l5) =>
          let acc5 := dictSet acc4 "data_integrity" integrity
          -- step 6: sample data (guarded, optional)
          let (acc6, l6) :=
            if include_sample_data then
              match get_latest_data d cfg (some dbn_resolved) (some stable_name) Option.none 5 l5 with
              | (.error e, l6) =>
                (dictSet acc5 "sample_data"
                  (strDict [("error", .str ("Could not retrieve sample data: " ++ e))]), l6)
              | (.ok latest_data, l6) =>
                (dictSet acc5 "sample_data" (strDict
                  [("latest_records", .list (latest_data.data.map PyObj.list)),
                   ("sample_count",
                    .int (if latest_data.data.isEmpty then 0 else latest_data.data.length))]),
                 l6)
            else (acc5, l5)
          -- step 7: recent activity (guarded, optional)
          let (acc7, l7) :=
            if truthyOptInt days_back && decide (days_back.getD 0 > 0) then
              match execute_sql d ("SELECT COUNT(*) as recent_count FROM "
                  ++ dbn_resolved ++ "." ++ stable_name ++ " WHERE ts >= '"
                  ++ start_str ++ "' AND ts <= '" ++ end_str ++ "';") l6 with
              | (.error e, l7) =>
                (dictSet acc6 "recent_activity"
                  (strDict [("error", .str ("Could not analyze recent activity: " ++ e))]), l7)
              | (.ok recent_result, l7) =>
                match firstCellOr recent_result.data (.int 0) with
                | .error e =>
                  (dictSet acc6 "recent_activity"
                    (strDict [("error", .str ("Could not analyze recent activity: " ++ e))]), l7)
                | .ok recent_count =>
                  (dictSet acc6 "recent_activity" (strDict
                    [("days_analyzed", .int (days_back.getD 0)),
                     ("time_range", .str (start_str ++ " to " ++ end_str)),
                     ("recent_record_count", recent_count)]), l7)
            else (acc6, l6)
          -- step 8: tag distribution (guarded, conditional on step 2)
          let tagColsTruthy :=
            match dictGet acc7 "tags" with
            | some (.dict entries) =>
              match pyDictGet entries (.str "tag_columns") with
              | some v => pyTruthy v
              | Option.none => false
            | _ => false
          if tagColsTruthy then
            let firstTagE : Except String PyObj :=
              match dictGet acc7 "tags" with
              | some (.dict entries) =>
                match pyDictGet entries (.str "tag_columns") with
                | some v =>
                  match pyIndex0 v with
                  | .error e => .error e
                  | .ok row => pyIndex0 row
                | Option.none => .error "object is not subscriptable"
              | _ => .error "object is not subscriptable"
            match firstTagE with
            | .error e =>
              (.ok (dictSet acc7 "tag_distribution"
                (strDict [("error", .str ("Could not analyze tag distribution: " ++ e))])), l7)
            | .ok first_tag =>
              match get_tag_values d cfg (some dbn_resolved) stable_name (pyStr first_tag)
                  (some 20) l7 with
              | (.error e, l8) =>
                (.ok (dictSet acc7 "tag_distribution"
                  (strDict [("error", .str ("Could not analyze tag distribution: " ++ e))])), l8)
              | (.ok tag_values, l8) =>
                (.ok (dictSet acc7 "tag_distribution" (strDict
                  [("tag_name", first_tag),
                   ("unique_values", .list (tag_values.data.map PyObj.list)),
                   ("unique_count",
                    .int (if tag_values.data.isEmpty then 0 else tag_values.data.length))])), l8)
          else (.ok acc7, l7)

/-- The base fields `comprehensive_stable_analysis` assigns before the
outer `try`. -/
def comprehensive_base (stable_name dbn : String) : List (String × PyObj) :=
  [("stable_name", .str stable_name),
   ("database_name", .str dbn),
   ("analysis_timestamp", .str "NOW()")]

/-- `comprehensive_stable_analysis`: base fields, the step sequence under
the outer `try`, then `analysis_status = "completed"` on a normal exit or
`analysis_status = "failed"` plus a top-level `error` when an exception
escaped the sequence (the already-collected sections are kept). -/
def comprehensive_stable_analysis (d : Driver) (cfg : String)
    (db_name : Option String) (stable_name : String)
    (include_sample_data : Bool) (days_back : Option Int)
    (start_str end_str : String) : DbM (List (String × PyObj)) := fun log =>
  let dbn := resolveDb cfg db_name
  match comp_steps d cfg dbn stable_name include_sample_data
      days_back start_str end_str (comprehensive_base stable_name dbn) log with
  | (.ok res, l) => (.ok (dictSet res "analysis_status" (.str "completed")), l)
  | (.error (par, e), l) =>
    (.ok (dictSet (dictSet par "analysis_status" (.str "failed"))
      "error" (.str e)), l)

/-- The steps of `time_series_dashboard_data` inside its single outer
`try`: an error outcome carries the partial dictionary. -/
def dash_steps (d : Driver) (cfg : String) (dbn : String)
    (stable_name metric_column : String) (interval_minutes : Int)
    (group_by_tag : Option String) (start_str end_str : String)
    (acc0 : List (String × PyObj)) :
    List String →
      (Except (List (String × PyObj) × String) (List (String × PyObj)))
        × List String := fun log =>
  let group_by_tags : Option (List String) :=
    if truthyStr group_by_tag then some [optStr group_by_tag] else Option.none
  let ival := toString interval_minutes ++ "m"
  match aggregate_query d cfg (some dbn) (some stable_name) Option.none
      "avg" metric_column (some ival) group_by_tags
      (some start_str) (some end_str) log with
  | (.error e, l1) => (.error (acc0, e), l1)
  | (.ok avg_data, l1) =>
    let acc1 := dictSet acc0 "avg_time_series" (respToDict avg_data)
    match aggregate_query d cfg (some dbn) (some stable_name) Option.none
        "max" metric_column (some ival) group_by_tags
        (some start_str) (some end_str) l1 with
    | (.error e, l2) => (.error (acc1, e), l2)
    | (.ok max_data, l2) =>
      let acc2 := dictSet acc1 "max_time_series" (respToDict max_data)
      match aggregate_query d cfg (some dbn) (some stable_name) Option.none
          "min" metric_column (some ival) group_by_tags
          (some start_str) (some end_str) l2 with
      | (.error e, l3) => (.error (acc2, e), l3)
      | (.ok min_data, l3) =>
        let acc3 := dictSet acc2 "min_time_series" (respToDict min_data)
        match aggregate_query d cfg (some dbn) (some stable_name) Option.none
            "avg" metric_column Option.none group_by_tags
            (some start_str) (some end_str) l3 with
        | (.error e, l4) => (.error (acc3, e), l4)
        | (.ok overall_avg, l4) =>
          match aggregate_query d cfg (some dbn) (some stable_name) Option.none
              "count" metric_column Option.none group_by_tags
              (some start_str) (some end_str) l4 with
          | (.error e, l5) => (.error (acc3, e), l5)
          | (.ok overall_count, l5) =>
            let acc4 := dictSet acc3 "overall_statistics"
              (.dict [(.str "average", respToDict overall_avg),
                      (.str "count", respToDict overall_count)])
            match get_latest_data d cfg (some dbn) (some stable_name)
                Option.none 1 l5 with
            | (.error e, l6) => (.error (acc4, e), l6)
            | (.ok latest_data, l6) =>
              let acc5 := dictSet acc4 "latest_value" (respToDict latest_data)
              if truthyStr group_by_tag then
                match get_tag_values d cfg (some dbn) stable_name
                    (optStr group_by_tag) (some 50) l6 with
                | (.error e, l7) => (.error (acc5, e), l7)
                | (.ok tag_values, l7) =>
                  (.ok (dictSet acc5 "tag_distribution" (respToDict tag_values)), l7)
              else (.ok acc5, l6)

/-- The base fields `time_series_dashboard_data` assigns before its
`try`. -/
def dashboard_base (stable_name metric_column : String)
    (interval_minutes : Int) (group_by_tag : Option String)
    (start_str end_str : String) : List (String × PyObj) :=
  [("stable_name", .str stable_name),
   ("metric_column", .str metric_column),
   ("time_range", .str (start_str ++ " to " ++ end_str)),
   ("interval", .str (toString interval_minutes ++ "m")),
   ("group_by_tag",
    match group_by_tag with
    | some s => .str s
    | Option.none => .none)]

/-- `time_series_dashboard_data`: base fields, the seven sequential
sub-queries under one `try`, then `status = "success"`, or
`status = "error"` plus `error` with the partial results kept.  The two
time strings stand for the `datetime.now()`-derived window. -/
def time_series_dashboard_data (d : Driver) (cfg : String)
    (db_name : Option String) (stable_name metric_column : String)
    (time_range_hours interval_minutes : Int)
    (group_by_tag : Option String) (start_str end_str : String) :
    DbM (List (String × PyObj)) := fun log =>
  let dbn := resolveDb cfg db_name
  match dash_steps d cfg dbn stable_name metric_column interval_minutes
      group_by_tag start_str end_str
      (dashboard_base stable_name metric_column interval_minutes
        group_by_tag start_str end_str) log with
  | (.ok res, l) => (.ok (dictSet res "status" (.str "success")), l)
  | (.error (par, e), l) =>
    (.ok (dictSet (dictSet par "status" (.str "error")) "error" (.str e)), l)

/-! Spec-side definitions: the claims' own vocabulary, written from the
claims' words, to be compared with the embedded code. -/

/-- The fifteen denied keywords exactly as the claim enumerates them. -/
def deniedKeywordsClaim : List String :=
  ["ALTER", "CREATE", "DELETE", "DROP", "INSERT", "UPDATE", "TRIM",
   "FLUSH", "BALANCE", "REDISTRIBUTE", "GRANT", "REVOKE", "RESET",
   "KILL", "COMPACT"]

/-- The claim's predicate: `uppercase(trim(s))` starts with one of the
fifteen denied keywords. -/
def claimStartsWithDenied (s : String) : Prop :=
  ∃ kw ∈ deniedKeywordsClaim,
    startsWithChars (upperChars (stripChars s.toList)) kw.toList = true

instance (s : String) : Decidable (claimStartsWithDenied s) :=
  inferInstanceAs (Decidable (∃ kw ∈ deniedKeywordsClaim, _))

/-- Remainder of `l` after the first occurrence of `pat`, when any. -/
def afterFirst : List Char → List Char → Option (List Char)
  | [], pat => if pat.isEmpty then some [] else Option.none
  | a :: as, pat =>
    if startsWithChars (a :: as) pat then some ((a :: as).drop pat.length)
    else afterFirst as pat

/-- Substring test on strings. -/
def strContains (s sub : String) : Bool :=
  (afterFirst s.toList sub.toList).isSome

/-- Each pattern occurs, and in the given order (each found strictly
after the end of the previous one). -/
def containsInOrder : List Char → List (List Char) → Bool
  | _, [] => true
  | s, p :: ps =>
    match afterFirst s p with
    | Option.none => false
    | some rest => containsInOrder rest ps

/-- `containsInOrder` on strings. -/
def strContainsInOrder (s : String) (parts : List String) : Bool :=
  containsInOrder s.toList (parts.map String.toList)

/-! Concrete drivers used by the scenario theorems and witnesses. -/

/-- A driver that always succeeds with an entirely field-less response. -/
def allOkDriver : Driver := fun _ => .ok {}

/-- Driver for the C5 failing input: `SHOW STABLES LIKE` matches
nothing (zero rows, empty data). -/
def c5_empty_show_driver : Driver := fun _ =>
  .ok { status := some "succ",
        column_meta := some [[.str "stable_name", .str "VARCHAR", .int 192]],
        data := some [],
        rows := some 0 }

/-- Driver for the C3 scenario: the tag-describe query raises, every
other query of the comprehensive analysis succeeds. -/
def c3_tags_fail_driver : Driver := fun sql =>
  if sql == "SHOW TAGS FROM demo.meters;" then
    .error "Fetch tags failed"
  else if sql == "DESCRIBE demo.meters;" then
    .ok { data := some [[.str "ts", .str "TIMESTAMP", .int 8, .str ""],
                        [.str "v", .str "FLOAT", .int 4, .str ""]],
          rows := some 2 }
  else if sql == "SELECT MIN(ts) as min_time, MAX(ts) as max_time FROM demo.meters;" then
    .ok { data := some [[.str "2024-01-01 00:00:00.000", .str "2024-01-07 23:59:59.000"]],
          rows := some 1 }
  else if sql == "SELECT COUNT(*) as total_records FROM demo.meters;" then
    .ok { data := some [[.int 100]], rows := some 1 }
  else if sql == "SELECT COUNT(*) as table_count FROM information_schema.ins_tables WHERE stable_name='meters' AND db_name='demo';" then
    .ok { data := some [[.int 3]], rows := some 1 }
  else if sql == "SELECT COUNT(*) as row_count FROM demo.meters;" then
    .ok { data := some [[.int 100]], rows := some 1 }
  else if sql == "SELECT COUNT(*) as total_rows FROM demo.meters;" then
    .ok { data := some [[.int 100]], rows := some 1 }
  else if sql == "SELECT COUNT(*) as null_count FROM demo.meters WHERE v IS NULL;" then
    .ok { data := some [[.int 0]], rows := some 1 }
  else if sql == "SELECT * FROM demo.meters ORDER BY ts DESC LIMIT 5;" then
    .ok { data := some [[.str "2024-01-07 23:59:59.000", .int 7]], rows := some 1 }
  else if sql == "SELECT COUNT(*) as recent_count FROM demo.meters WHERE ts >= '2024-01-01 00:00:00' AND ts <= '2024-01-08 00:00:00';" then
    .ok { data := some [[.int 50]], rows := some 1 }
  else .ok {}

/-- Driver for the C3 counterexample: schema and tag queries succeed,
but the first query of the performance step raises. -/
def c3_perf_fail_driver : Driver := fun sql =>
  if sql == "DESCRIBE demo.meters;" then
    .ok { data := some [[.str "ts", .str "TIMESTAMP", .int 8, .str ""],
                        [.str "v", .str "FLOAT", .int 4, .str ""]],
          rows := some 2 }
  else if sql == "SHOW TAGS FROM demo.meters;" then
    .ok { data := some [[.str "location", .str "VARCHAR", .int 24]],
          rows := some 1 }
  else if sql == "SELECT MIN(ts) as min_time, MAX(ts) as max_time FROM demo.meters;" then
    .error "performance query boom"
  else .ok {}

/-- Driver for the C4 no-isolation conjunct's witness: the first
(interval-average) dashboard sub-query succeeds, the second
(interval-maximum) raises. -/
def c4_max_fail_driver : Driver := fun sql =>
  if sql == "SELECT _wstart, MAX(temp) FROM demo.sensors WHERE ts >= '2024-01-01 00:00:00' AND ts <= '2024-01-02 00:00:00' PARTITION BY device INTERVAL(60m);" then
    .error "max query boom"
  else .ok {}

/-- The interval-average statement of the representative dashboard run
(`demo.sensors`, metric `temp`, 60-minute interval, tag `device`,
window 2024-01-01 to 2024-01-02). -/
def c4_stmt_avg : String :=
  "SELECT _wstart, AVG(temp) FROM demo.sensors WHERE ts >= '2024-01-01 00:00:00' AND ts <= '2024-01-02 00:00:00' PARTITION BY device INTERVAL(60m);"

/-- The interval-maximum statement of the representative dashboard run. -/
def c4_stmt_max : String :=
  "SELECT _wstart, MAX(temp) FROM demo.sensors WHERE ts >= '2024-01-01 00:00:00' AND ts <= '2024-01-02 00:00:00' PARTITION BY device INTERVAL(60m);"

/-- The interval-minimum statement of the representative dashboard run. -/
def c4_stmt_min : String :=
  "SELECT _wstart, MIN(temp) FROM demo.sensors WHERE ts >= '2024-01-01 00:00:00' AND ts <= '2024-01-02 00:00:00' PARTITION BY device INTERVAL(60m);"

/-- The whole-window average statement of the representative dashboard
run. -/
def c4_stmt_oavg : String :=
  "SELECT AVG(temp) FROM demo.sensors WHERE ts >= '2024-01-01 00:00:00' AND ts <= '2024-01-02 00:00:00' PARTITION BY device;"

/-- The whole-window count statement of the representative dashboard
run. -/
def c4_stmt_ocount : String :=
  "SELECT COUNT(temp) FROM demo.sensors WHERE ts >= '2024-01-01 00:00:00' AND ts <= '2024-01-02 00:00:00' PARTITION BY device;"

/-- The latest-value statement of the representative dashboard run. -/
def c4_stmt_latest : String :=
  "SELECT * FROM demo.sensors ORDER BY ts DESC LIMIT 1;"

/-- The tag-distribution statement of the representative dashboard run. -/
def c4_stmt_tags : String :=
  "SELECT DISTINCT device FROM demo.sensors LIMIT 50;"

/-- The `TaosSqlResponse` dictionary produced from an entirely
field-less driver response (all documented defaults). -/
def emptyRespDict : PyObj :=
  .dict [(.str "status", .str ""),
         (.str "head", .list []),
         (.str "column_meta", .list []),
         (.str "data", .list []),
         (.str "rows", .int (-1))]

/-- The dashboard report of the representative run when every
sub-query succeeds (driver `allOkDriver`): all sections present, in
issue order, and `status = "success"`. -/
def c4_ok_result : List (String × PyObj) :=
  [("stable_name", .str "sensors"),
   ("metric_column", .str "temp"),
   ("time_range", .str "2024-01-01 00:00:00 to 2024-01-02 00:00:00"),
   ("interval", .str "60m"),
   ("group_by_tag", .str "device"),
   ("avg_time_series", emptyRespDict),
   ("max_time_series", emptyRespDict),
   ("min_time_series", emptyRespDict),
   ("overall_statistics", .dict [(.str "average", emptyRespDict),
                                 (.str "count", emptyRespDict)]),
   ("latest_value", emptyRespDict),
   ("tag_distribution", emptyRespDict),
   ("status", .str "success")]

/-- The dashboard report of the representative run when the second
sub-query (interval maximum) raises: only the sections gathered before
the failure, then `status = "error"` and the message. -/
def c4_fail_result : List (String × PyObj) :=
  [("stable_name", .str "sensors"),
   ("metric_column", .str "temp"),
   ("time_range", .str "2024-01-01 00:00:00 to 2024-01-02 00:00:00"),
   ("interval", .str "60m"),
   ("group_by_tag", .str "device"),
   ("avg_time_series", emptyRespDict),
   ("status", .str "error"),
   ("error", .str "max query boom")]

/-- The `TaosSqlResponse` obtained from an entirely field-less driver
response: every field takes its documented default, in particular
`rows = -1` while `data = []`. -/
def c7_default_resp : TaosSqlResponse :=
  { status := "", head := [], column_meta := [], data := [], rows := -1 }

/-- A driver response whose row count, data and metadata are mutually
consistent (one row of width one, one metadata triple). -/
def c7_consistent_raw : RawResponse :=
  { column_meta := some [[.str "c", .str "INT", .int 4]],
    data := some [[.int 5]],
    rows := some 1 }

/-- The comprehensive-analysis report of the C3 scenario (tag-describe
raises, everything else succeeds, driver `c3_tags_fail_driver`). -/
def c3_scenario_result : List (String × PyObj) :=
  [("stable_name", .str "meters"),
   ("database_name", .str "demo"),
   ("analysis_timestamp", .str "NOW()"),
   ("schema", .dict [(.str "columns",
        .list [.list [.str "ts", .str "TIMESTAMP", .int 8, .str ""],
               .list [.str "v", .str "FLOAT", .int 4, .str ""]]),
      (.str "column_count", .int 2)]),
   ("tags", .dict [(.str "error",
      .str "Could not retrieve tag info: Fetch tags failed")]),
   ("performance", .dict [(.str "time_range",
        .list [.str "2024-01-01 00:00:00.000", .str "2024-01-07 23:59:59.000"]),
      (.str "total_records", .int 100),
      (.str "table_count", .int 3)]),
   ("statistics", .dict [(.str "status", .str ""),
      (.str "head", .list []),
      (.str "column_meta", .list []),
      (.str "data", .list [.list [.int 100]]),
      (.str "rows", .int 1)]),
   ("data_integrity", .dict [(.str "total_rows", .int 100),
      (.str "null_counts", .dict [(.str "v", .int 0)])]),
   ("sample_data", .dict [(.str "latest_records",
        .list [.list [.str "2024-01-07 23:59:59.000", .int 7]]),
      (.str "sample_count", .int 1)]),
   ("recent_activity", .dict [(.str "days_analyzed", .int 7),
      (.str "time_range", .str "2024-01-01 00:00:00 to 2024-01-08 00:00:00"),
      (.str "recent_record_count", .int 50)]),
   ("analysis_status", .str "completed")]

/-- The statements the C3 scenario submits, in order. -/
def c3_scenario_trace : List String :=
  ["DESCRIBE demo.meters;",
   "SHOW TAGS FROM demo.meters;",
   "SELECT MIN(ts) as min_time, MAX(ts) as max_time FROM demo.meters;",
   "SELECT COUNT(*) as total_records FROM demo.meters;",
   "SELECT COUNT(*) as table_count FROM information_schema.ins_tables WHERE stable_name='meters' AND db_name='demo';",
   "SELECT COUNT(*) as row_count FROM demo.meters;",
   "SELECT COUNT(*) as total_rows FROM demo.meters;",
   "DESCRIBE demo.meters;",
   "SELECT COUNT(*) as null_count FROM demo.meters WHERE v IS NULL;",
   "SELECT * FROM demo.meters ORDER BY ts DESC LIMIT 5;",
   "SELECT COUNT(*) as recent_count FROM demo.meters WHERE ts >= '2024-01-01 00:00:00' AND ts <= '2024-01-08 00:00:00';"]

/-- The comprehensive-analysis report when the performance step's first
query raises (driver `c3_perf_fail_driver`): schema and tags sections
were collected, but there is no `performance` error section, no later
section at all, and the whole analysis is marked failed. -/
def c3_cx_result : List (String × PyObj) :=
  [("stable_name", .str "meters"),
   ("database_name", .str "demo"),
   ("analysis_timestamp", .str "NOW()"),
   ("schema", .dict [(.str "columns",
        .list [.list [.str "ts", .str "TIMESTAMP", .int 8, .str ""],
               .list [.str "v", .str "FLOAT", .int 4, .str ""]]),
      (.str "column_count", .int 2)]),
   ("tags", .dict [(.str "tag_columns",
        .list [.list [.str "location", .str "VARCHAR", .int 24]]),
      (.str "tag_count", .int 1)]),
   ("analysis_status", .str "failed"),
   ("error", .str "performance query boom")]

/-- The C3 scenario's step-sequence result before the final
`analysis_status` assignment. -/
def c3_steps_result : List (String × PyObj) :=
  [("stable_name", .str "meters"),
   ("database_name", .str "demo"),
   ("analysis_timestamp", .str "NOW()"),
   ("schema", .dict [(.str "columns",
        .list [.list [.str "ts", .str "TIMESTAMP", .int 8, .str ""],
               .list [.str "v", .str "FLOAT", .int 4, .str ""]]),
      (.str "column_count", .int 2)]),
   ("tags", .dict [(.str "error",
      .str "Could not retrieve tag info: Fetch tags failed")]),
   ("performance", .dict [(.str "time_range",
        .list [.str "2024-01-01 00:00:00.000", .str "2024-01-07 23:59:59.000"]),
      (.str "total_records", .int 100),
      (.str "table_count", .int 3)]),
   ("statistics", .dict [(.str "status", .str ""),
      (.str "head", .list []),
      (.str "column_meta", .list []),
      (.str "data", .list [.list [.int 100]]),
      (.str "rows", .int 1)]),
   ("data_integrity", .dict [(.str "total_rows", .int 100),
      (.str "null_counts", .dict [(.str "v", .int 0)])]),
   ("sample_data", .dict [(.str "latest_records",
        .list [.list [.str "2024-01-07 23:59:59.000", .int 7]]),
      (.str "sample_count", .int 1)]),
   ("recent_activity", .dict [(.str "days_analyzed", .int 7),
      (.str "time_range", .str "2024-01-01 00:00:00 to 2024-01-08 00:00:00"),
      (.str "recent_record_count", .int 50)])]

/-- The partial dashboard dictionary gathered before the failing second
sub-query of the `c4_max_fail_driver` run. -/
def c4_steps_partial : List (String × PyObj) :=
  [("stable_name", .str "sensors"),
   ("metric_column", .str "temp"),
   ("time_range", .str "2024-01-01 00:00:00 to 2024-01-02 00:00:00"),
   ("interval", .str "60m"),
   ("group_by_tag", .str "device"),
   ("avg_time_series", emptyRespDict)]

/-! Theorems. -/

/-- C1: for every SQL string `s`, `execute_sql` raises the fixed
security-restriction error while never contacting the database (the
submitted-statement log is unchanged) exactly when `uppercase(trim(s))`
starts with one of the fifteen denied keywords; every other string
passes the guard (and is submitted), even if a denied keyword occurs
later in the string — the guard is a prefix check only. -/
theorem c1_statement_guard (s : String) :
    (claimStartsWithDenied s ↔ validate_sql_stmt s = Except.error securityMessage)
    ∧ (¬ claimStartsWithDenied s → validate_sql_stmt s = Except.ok ())
    ∧ (∀ (d : Driver) (log : List String),
        ((execute_sql d s log).1 = Except.error securityMessage
            ∧ (execute_sql d s log).2 = log)
          ↔ claimStartsWithDenied s) := by
  have hval : validate_sql_stmt s =
      if NOT_ALLOWED_TAOS_SQL.any
          (fun kw => startsWithChars (upperChars (stripChars s.toList)) kw.toList) then
        Except.error securityMessage
      else Except.ok () := rfl
  have key : claimStartsWithDenied s ↔
      NOT_ALLOWED_TAOS_SQL.any
        (fun kw => startsWithChars (upperChars (stripChars s.toList)) kw.toList)
        = true := by
    constructor
    · rintro ⟨kw, hmem, hkw⟩
      exact List.any_eq_true.mpr ⟨kw, hmem, hkw⟩
    · intro h
      obtain ⟨kw, hmem, hkw⟩ := List.any_eq_true.mp h
      exact ⟨kw, hmem, hkw⟩
  have hexec : ∀ (d : Driver) (log : List String), execute_sql d s log =
      match validate_sql_stmt s with
      | .error e => (.error e, log)
      | .ok _ =>
        match d s with
        | .error e => (.error e, log ++ [s])
        | .ok r => (.ok (mkResp r), log ++ [s]) := fun _ _ => rfl
  by_cases hden : claimStartsWithDenied s
  · have hb := key.mp hden
    have hverr : validate_sql_stmt s = Except.error securityMessage := by
      rw [hval, hb]; rfl
    refine ⟨⟨fun _ => hverr, fun _ => hden⟩, fun h => absurd hden h, ?_⟩
    intro d log
    refine ⟨fun _ => hden, fun _ => ?_⟩
    rw [hexec d log, hverr]
    exact ⟨rfl, rfl⟩
  · have hb : NOT_ALLOWED_TAOS_SQL.any
        (fun kw => startsWithChars (upperChars (stripChars s.toList)) kw.toList)
        = false := by
      cases h : NOT_ALLOWED_TAOS_SQL.any
          (fun kw => startsWithChars (upperChars (stripChars s.toList)) kw.toList)
      · rfl
      · exact absurd (key.mpr h) hden
    have hvok : validate_sql_stmt s = Except.ok () := by
      rw [hval, hb]; rfl
    refine ⟨⟨fun h => absurd h hden, fun h => ?_⟩, fun _ => hvok, ?_⟩
    · rw [hvok] at h; cases h
    · intro d log
      refine ⟨fun ⟨_, h2⟩ => ?_, fun h => absurd h hden⟩
      rw [hexec d log, hvok] at h2
      cases hds : d s <;> rw [hds] at h2 <;> simp at h2

/-- Witness for `c1_statement_guard` at concrete inputs discharging its
hypotheses: a lowercase, whitespace-led `delete` statement is rejected
with the fixed message and never submitted, while a select statement
merely containing a denied keyword passes the guard. -/
theorem c1_statement_guard_witness :
    validate_sql_stmt "  delete from demo.meters;" = Except.error securityMessage
    ∧ validate_sql_stmt "SELECT 1 WHERE note='DROP';" = Except.ok ()
    ∧ ((execute_sql allOkDriver "  delete from demo.meters;" []).1
          = Except.error securityMessage
        ∧ (execute_sql allOkDriver "  delete from demo.meters;" []).2 = []) :=
  ⟨(c1_statement_guard "  delete from demo.meters;").1.mp (by decide),
   (c1_statement_guard "SELECT 1 WHERE note='DROP';").2.1 (by decide),
   ((c1_statement_guard "  delete from demo.meters;").2.2 allOkDriver []).mpr
     (by decide)⟩

/-- C2: the aggregate builder invoked with `avg`/`temp`/`1h`/`["device"]`
and the claimed time window over table `db.sensors` yields a statement
containing, in order, the windowed select expression, the table
reference, the time-range predicate, `PARTITION BY device` and
`INTERVAL(1h)`; and in general, whenever both group-by tags and an
interval are supplied, the `PARTITION BY` clause precedes the
`INTERVAL` clause. -/
theorem c2_aggregate_round_trip :
    (aggregate_query_sql "x" (some "db") Option.none (some "sensors")
        "avg" "temp" (some "1h") (some ["device"])
        (some "2024-01-01 00:00:00") (some "2024-01-02 00:00:00")
      = Except.ok "SELECT _wstart, AVG(temp) FROM db.sensors WHERE ts >= '2024-01-01 00:00:00' AND ts <= '2024-01-02 00:00:00' PARTITION BY device INTERVAL(1h);"
      ∧ strContainsInOrder
          "SELECT _wstart, AVG(temp) FROM db.sensors WHERE ts >= '2024-01-01 00:00:00' AND ts <= '2024-01-02 00:00:00' PARTITION BY device INTERVAL(1h);"
          ["_wstart, AVG(temp)", "db.sensors",
           "ts >= '2024-01-01 00:00:00' AND ts <= '2024-01-02 00:00:00'",
           "PARTITION BY device", "INTERVAL(1h)"] = true)
    ∧ ∀ (cfg : String) (db_name stable_name table_name : Option String)
        (agg_function column_name : String) (i : String)
        (tags : List String) (start_time end_time : Option String)
        (tgt : String),
        i ≠ "" → tags ≠ [] →
        resolve_target (resolveDb cfg db_name) table_name stable_name
          = Except.ok tgt →
        ∃ pre, aggregate_query_sql cfg db_name stable_name table_name
            agg_function column_name (some i) (some tags)
            start_time end_time
          = Except.ok (pre ++ (" PARTITION BY "
              ++ String.intercalate ", " tags
              ++ (" INTERVAL(" ++ i ++ ")")) ++ ";") := by
  refine ⟨⟨by rfl, by rfl⟩, ?_⟩
  intro cfg db_name stable_name table_name agg_function column_name i tags
    start_time end_time tgt hi htags hres
  have hi' : truthyStr (some i) = true := by
    simp [truthyStr, hi]
  have ht' : truthyList (some tags) = true := by
    simp [truthyList, htags]
  simp only [aggregate_query_sql, hres, hi', ht', if_true, optStr, optList,
    Option.getD_some]
  exact ⟨_, rfl⟩

/-- Witness for the universally quantified part of
`c2_aggregate_round_trip`, at a concrete input discharging all
hypotheses. -/
theorem c2_aggregate_round_trip_witness :
    ∃ pre, aggregate_query_sql "x" (some "db") Option.none (some "sensors")
        "avg" "temp" (some "1h") (some ["device"])
        (some "2024-01-01 00:00:00") (some "2024-01-02 00:00:00")
      = Except.ok (pre ++ (" PARTITION BY "
          ++ String.intercalate ", " ["device"]
          ++ (" INTERVAL(" ++ "1h" ++ ")")) ++ ";") :=
  c2_aggregate_round_trip.2 "x" (some "db") Option.none (some "sensors")
    "avg" "temp" "1h" ["device"]
    (some "2024-01-01 00:00:00") (some "2024-01-02 00:00:00")
    "db.sensors" (by decide) (by decide) (by rfl)

/-- C5: contrary to the claimed `row_count > 0` semantics (and to the
tool's own docstring), `test_table_exists` computes `bool(result)` on
the whole five-key `TaosSqlResponse` dictionary, which is always
non-empty: the returned map says `true` for every driver response, in
particular for a `SHOW STABLES LIKE` result with zero rows and empty
data. -/
theorem c5_test_table_exists_always_true :
    (∀ r : RawResponse,
        test_table_exists (fun _ => Except.ok r) "missing_stable" []
          = (Except.ok [("missing_stable", true)],
             ["SHOW STABLES LIKE 'missing_stable'"]))
    ∧ test_table_exists c5_empty_show_driver "missing_stable" []
        = (Except.ok [("missing_stable", true)],
           ["SHOW STABLES LIKE 'missing_stable'"])
    ∧ (execute_sql c5_empty_show_driver
        (test_table_exists_sql "missing_stable") []).1
        = Except.ok { status := "succ", head := [],
                      column_meta := [[.str "stable_name", .str "VARCHAR", .int 192]],
                      data := [], rows := 0 } :=
  ⟨fun _ => rfl, rfl, rfl⟩

/-- C6: `get_latest_data`, `get_data_by_time_range` and
`aggregate_query`, invoked with neither `table_name` nor `stable_name`,
raise the missing-target `ValueError` with no SQL statement built and
the database never contacted (the submitted-statement log is
unchanged, for every driver). -/
theorem c6_missing_target (d : Driver) (cfg : String)
    (db_name : Option String) (log : List String) (limit : Int)
    (start_time end_time : String) (lim : Option Int)
    (agg_function column_name : String) (interval : Option String)
    (group_by_tags : Option (List String))
    (st et : Option String) :
    get_latest_data_sql cfg db_name Option.none Option.none limit
      = Except.error "Either stable_name or table_name must be specified"
    ∧ get_latest_data d cfg db_name Option.none Option.none limit log
      = (Except.error "Either stable_name or table_name must be specified", log)
    ∧ get_data_by_time_range_sql cfg db_name Option.none Option.none
        start_time end_time lim
      = Except.error "Either stable_name or table_name must be specified"
    ∧ get_data_by_time_range d cfg db_name Option.none Option.none
        start_time end_time lim log
      = (Except.error "Either stable_name or table_name must be specified", log)
    ∧ aggregate_query_sql cfg db_name Option.none Option.none
        agg_function column_name interval group_by_tags st et
      = Except.error "Either stable_name or table_name must be specified"
    ∧ aggregate_query d cfg db_name Option.none Option.none
        agg_function column_name interval group_by_tags st et log
      = (Except.error "Either stable_name or table_name must be specified", log) :=
  ⟨rfl, rfl, rfl, rfl, rfl, rfl⟩

/-- C7 counterexample: on a successful execution where the driver
response omits the row-count and data fields, the client's documented
defaults give `row_count = -1` while `rows` is empty — so `row_count`
does not equal the number of entries in `rows`, contrary to the claim's
"including when the driver response omits the row-count or data
fields". -/
theorem c7_row_count_default_mismatch :
    (execute_sql allOkDriver "SELECT 1;" []).1 = Except.ok c7_default_resp
    ∧ c7_default_resp.rows ≠ (c7_default_resp.data.length : Int) :=
  ⟨rfl, by decide⟩

/-- C7 amended: `execute_sql` performs no consistency enforcement — it
maps the driver response field-by-field with the documented defaults
(status `""`, head `[]`, metadata `[]`, rows `[]`, row count `-1`).
Consequently `row_count = |rows|` and the metadata-width invariant hold
exactly when the driver response itself is consistent; a response
omitting count and data yields `row_count = -1` with zero rows. -/
theorem c7_resultset_amended :
    (∀ (r : RawResponse) (d : Driver) (sql : String) (log : List String),
        validate_sql_stmt sql = Except.ok () → d sql = Except.ok r →
        (execute_sql d sql log).1 = Except.ok (mkResp r))
    ∧ (∀ (r : RawResponse) (n : Int) (rows : List (List PyObj)),
        r.rows = some n → r.data = some rows → n = rows.length →
        (mkResp r).rows = ((mkResp r).data.length : Int))
    ∧ (∀ (r : RawResponse) (meta rows : List (List PyObj)),
        r.column_meta = some meta → r.data = some rows →
        (∀ row ∈ rows, row.length = meta.length) →
        ∀ row ∈ (mkResp r).data, row.length = (mkResp r).column_meta.length)
    ∧ mkResp {} = c7_default_resp := by
  refine ⟨?_, ?_, ?_, rfl⟩
  · intro r d sql log hv hd
    show ((match validate_sql_stmt sql with
      | .error e => ((.error e : Except String TaosSqlResponse), log)
      | .ok _ =>
        match d sql with
        | .error e => (.error e, log ++ [sql])
        | .ok r => (.ok (mkResp r), log ++ [sql])).1 = _)
    rw [hv, hd]
  · intro r n rows h1 h2 h3
    simp [mkResp, h1, h2, h3]
  · intro r meta rows h1 h2 h3
    simp only [mkResp, h1, h2, Option.getD_some]
    exact h3

/-- Witness for `c7_resultset_amended` at concrete inputs discharging
all hypotheses: a field-less response maps to the defaults, and a
consistent response satisfies both invariants. -/
theorem c7_resultset_amended_witness :
    (execute_sql allOkDriver "SELECT 1;" []).1 = Except.ok (mkResp {})
    ∧ (mkResp c7_consistent_raw).rows
        = ((mkResp c7_consistent_raw).data.length : Int)
    ∧ (∀ row ∈ (mkResp c7_consistent_raw).data,
        row.length = (mkResp c7_consistent_raw).column_meta.length) :=
  ⟨c7_resultset_amended.1 {} allOkDriver "SELECT 1;" [] rfl rfl,
   c7_resultset_amended.2.1 c7_consistent_raw 1 [[.int 5]] rfl rfl (by decide),
   c7_resultset_amended.2.2.1 c7_consistent_raw [[.str "c", .str "INT", .int 4]]
     [[.int 5]] rfl rfl (by decide)⟩

/-- C8 counterexample: `get_latest_data` takes a limit parameter, yet a
limit of zero still produces a statement with a `LIMIT` clause
(`LIMIT 0`), contrary to the claim that zero suppresses the clause for
every limit-taking builder. -/
theorem c8_latest_limit_zero :
    get_latest_data_sql "demo" Option.none (some "meters") Option.none 0
      = Except.ok "SELECT * FROM demo.meters ORDER BY ts DESC LIMIT 0;"
    ∧ strContains "SELECT * FROM demo.meters ORDER BY ts DESC LIMIT 0;"
        "LIMIT" = true :=
  ⟨rfl, rfl⟩

/-- C8 amended: `get_data_by_time_range` and `get_tag_values` append
their `LIMIT` clause exactly when the limit is truthy (`None` and `0`
suppress it); `get_latest_data` appends `LIMIT <limit>`
unconditionally, including `LIMIT 0`. -/
theorem c8_limit_amended (cfg : String)
    (db_name stable_name table_name : Option String)
    (start_time end_time : String) (b : String)
    (tagdb : Option String) (sn tag : String) :
    (time_range_base_sql cfg db_name stable_name table_name
        start_time end_time = Except.ok b →
      get_data_by_time_range_sql cfg db_name stable_name table_name
          start_time end_time Option.none = Except.ok (b ++ ";")
      ∧ get_data_by_time_range_sql cfg db_name stable_name table_name
          start_time end_time (some 0) = Except.ok (b ++ ";")
      ∧ ∀ n : Int, n ≠ 0 →
          get_data_by_time_range_sql cfg db_name stable_name table_name
              start_time end_time (some n)
            = Except.ok (b ++ " LIMIT " ++ toString n ++ ";"))
    ∧ (get_tag_values_sql cfg tagdb sn tag Option.none
        = tag_values_base_sql cfg tagdb sn tag ++ ";"
      ∧ get_tag_values_sql cfg tagdb sn tag (some 0)
        = tag_values_base_sql cfg tagdb sn tag ++ ";"
      ∧ ∀ n : Int, n ≠ 0 →
          get_tag_values_sql cfg tagdb sn tag (some n)
            = tag_values_base_sql cfg tagdb sn tag ++ " LIMIT "
                ++ toString n ++ ";")
    ∧ (∀ (limit : Int) (tgt : String),
        resolve_target (resolveDb cfg db_name) table_name stable_name
          = Except.ok tgt →
        get_latest_data_sql cfg db_name stable_name table_name limit
          = Except.ok ("SELECT * FROM " ++ tgt
              ++ " ORDER BY ts DESC LIMIT " ++ toString limit ++ ";")) := by
  refine ⟨?_, ⟨rfl, rfl, ?_⟩, ?_⟩
  · intro hb
    refine ⟨?_, ?_, ?_⟩
    · simp only [get_data_by_time_range_sql, hb, truthyOptInt, if_false,
        Bool.false_eq_true]
    · simp only [get_data_by_time_range_sql, hb]
      rfl
    · intro n hn
      have hn' : truthyOptInt (some n) = true := by
        simp [truthyOptInt, hn]
      simp only [get_data_by_time_range_sql, hb, hn', if_true,
        Option.getD_some]
  · intro n hn
    have hn' : truthyOptInt (some n) = true := by
      simp [truthyOptInt, hn]
    simp only [get_tag_values_sql, hn', if_true, Option.getD_some]
  · intro limit tgt hres
    simp only [get_latest_data_sql, hres]

/-- Witness for `c8_limit_amended` at concrete inputs discharging all
hypotheses. -/
theorem c8_limit_amended_witness :
    (get_data_by_time_range_sql "demo" Option.none (some "meters")
        Option.none "2024-01-01" "2024-01-02" Option.none
      = Except.ok ("SELECT * FROM demo.meters WHERE ts >= '2024-01-01' AND ts <= '2024-01-02' ORDER BY ts" ++ ";")
      ∧ get_data_by_time_range_sql "demo" Option.none (some "meters")
          Option.none "2024-01-01" "2024-01-02" (some 0)
        = Except.ok ("SELECT * FROM demo.meters WHERE ts >= '2024-01-01' AND ts <= '2024-01-02' ORDER BY ts" ++ ";")
      ∧ ∀ n : Int, n ≠ 0 →
          get_data_by_time_range_sql "demo" Option.none (some "meters")
              Option.none "2024-01-01" "2024-01-02" (some n)
            = Except.ok ("SELECT * FROM demo.meters WHERE ts >= '2024-01-01' AND ts <= '2024-01-02' ORDER BY ts"
                ++ " LIMIT " ++ toString n ++ ";"))
    ∧ get_latest_data_sql "demo" Option.none (some "meters") Option.none 7
      = Except.ok ("SELECT * FROM " ++ "demo.meters"
          ++ " ORDER BY ts DESC LIMIT " ++ toString (7 : Int) ++ ";") :=
  ⟨(c8_limit_amended "demo" Option.none (some "meters") Option.none
      "2024-01-01" "2024-01-02"
      "SELECT * FROM demo.meters WHERE ts >= '2024-01-01' AND ts <= '2024-01-02' ORDER BY ts"
      Option.none "s" "t").1 rfl,
   (c8_limit_amended "demo" Option.none (some "meters") Option.none
      "2024-01-01" "2024-01-02"
      "SELECT * FROM demo.meters WHERE ts >= '2024-01-01' AND ts <= '2024-01-02' ORDER BY ts"
      Option.none "s" "t").2.2 7 "demo.meters" rfl⟩

/-- C9: a `None` or empty-string database parameter resolves to the
connection's configured default database, and a non-empty parameter is
used verbatim, as witnessed by the fully-qualified targets of
`get_all_stables` and `get_field_infos`. -/
theorem c9_default_database (cfg stable_name dbs : String) :
    get_all_stables_sql cfg Option.none = "SHOW " ++ cfg ++ ".STABLES;"
    ∧ get_all_stables_sql cfg (some "") = "SHOW " ++ cfg ++ ".STABLES;"
    ∧ (dbs ≠ "" →
        get_all_stables_sql cfg (some dbs) = "SHOW " ++ dbs ++ ".STABLES;")
    ∧ get_field_infos_sql cfg Option.none stable_name
      = "DESCRIBE " ++ cfg ++ "." ++ stable_name ++ ";"
    ∧ get_field_infos_sql cfg (some "") stable_name
      = "DESCRIBE " ++ cfg ++ "." ++ stable_name ++ ";"
    ∧ (dbs ≠ "" →
        get_field_infos_sql cfg (some dbs) stable_name
          = "DESCRIBE " ++ dbs ++ "." ++ stable_name ++ ";") := by
  refine ⟨rfl, rfl, ?_, rfl, rfl, ?_⟩
  · intro h
    simp [get_all_stables_sql, resolveDb, h]
  · intro h
    simp [get_field_infos_sql, resolveDb, h]

/-- Witness for `c9_default_database` discharging the non-empty
hypotheses at a concrete database name. -/
theorem c9_default_database_witness :
    get_all_stables_sql "demo" (some "otherdb") = "SHOW " ++ "otherdb" ++ ".STABLES;"
    ∧ get_field_infos_sql "demo" (some "otherdb") "meters"
      = "DESCRIBE " ++ "otherdb" ++ "." ++ "meters" ++ ";" :=
  ⟨(c9_default_database "demo" "meters" "otherdb").2.2.1 (by decide),
   (c9_default_database "demo" "meters" "otherdb").2.2.2.2.2 (by decide)⟩

/-- C10: whenever both a truthy `table_name` and a `stable_name` are
supplied, the builders of `get_latest_data`, `get_data_by_time_range`,
`aggregate_query` and `get_table_stats` target `db.table_name` and
ignore the stable entirely; the stable is targeted only when the table
is absent or empty. -/
theorem c10_table_precedence (cfg : String) (db_name : Option String)
    (tb sb : String) (limit : Int) (start_time end_time : String)
    (lim : Option Int) (agg_function column_name : String)
    (interval : Option String) (group_by_tags : Option (List String))
    (st et : Option String) :
    (tb ≠ "" →
      resolve_target (resolveDb cfg db_name) (some tb) (some sb)
        = Except.ok (resolveDb cfg db_name ++ "." ++ tb)
      ∧ get_latest_data_sql cfg db_name (some sb) (some tb) limit
        = get_latest_data_sql cfg db_name Option.none (some tb) limit
      ∧ get_data_by_time_range_sql cfg db_name (some sb) (some tb)
          start_time end_time lim
        = get_data_by_time_range_sql cfg db_name Option.none (some tb)
            start_time end_time lim
      ∧ aggregate_query_sql cfg db_name (some sb) (some tb)
          agg_function column_name interval group_by_tags st et
        = aggregate_query_sql cfg db_name Option.none (some tb)
            agg_function column_name interval group_by_tags st et
      ∧ get_table_stats_sql cfg db_name (some sb) (some tb)
        = get_table_stats_sql cfg db_name Option.none (some tb))
    ∧ (sb ≠ "" →
      resolve_target (resolveDb cfg db_name) Option.none (some sb)
        = Except.ok (resolveDb cfg db_name ++ "." ++ sb)
      ∧ resolve_target (resolveDb cfg db_name) (some "") (some sb)
        = Except.ok (resolveDb cfg db_name ++ "." ++ sb)
      ∧ get_table_stats_sql cfg db_name (some sb) (some "")
        = get_table_stats_sql cfg db_name (some sb) Option.none) := by
  constructor
  · intro htb
    have htb' : truthyStr (some tb) = true := by simp [truthyStr, htb]
    refine ⟨?_, ?_, ?_, ?_, ?_⟩
    · simp [resolve_target, htb', optStr]
    · simp [get_latest_data_sql, resolve_target, htb']
    · simp [get_data_by_time_range_sql, time_range_base_sql,
        resolve_target, htb']
    · simp [aggregate_query_sql, resolve_target, htb']
    · simp [get_table_stats_sql, htb']
  · intro hsb
    refine ⟨?_, ?_, ?_⟩
    · simp [resolve_target, truthyStr, optStr, hsb]
    · simp [resolve_target, truthyStr, optStr, hsb]
    · simp [get_table_stats_sql, truthyStr]

/-- Witness for `c10_table_precedence` discharging the non-emptiness
hypotheses at concrete names. -/
theorem c10_table_precedence_witness :
    (resolve_target (resolveDb "demo" Option.none) (some "t1") (some "meters")
      = Except.ok (resolveDb "demo" Option.none ++ "." ++ "t1"))
    ∧ resolve_target (resolveDb "demo" Option.none) Option.none (some "meters")
      = Except.ok (resolveDb "demo" Option.none ++ "." ++ "meters") :=
  ⟨((c10_table_precedence "demo" Option.none "t1" "meters" 10 "a" "b"
      Option.none "avg" "v" Option.none Option.none Option.none
      Option.none).1 (by decide)).1,
   ((c10_table_precedence "demo" Option.none "t1" "meters" 10 "a" "b"
      Option.none "avg" "v" Option.none Option.none Option.none
      Option.none).2 (by decide)).1⟩

/-- C3 counterexample: a failure in the performance sub-step is not
recorded as an `{"error": ...}` section, and execution does not
continue to the next step — the whole analysis is marked `failed` with
no `performance` and no `statistics` section, refuting the claim that
each sub-step failure is isolated. -/
theorem c3_unguarded_step_failure :
    comprehensive_stable_analysis c3_perf_fail_driver "demo" Option.none
        "meters" true (some 7) "2024-01-01 00:00:00" "2024-01-08 00:00:00" []
      = (Except.ok c3_cx_result,
         ["DESCRIBE demo.meters;", "SHOW TAGS FROM demo.meters;",
          "SELECT MIN(ts) as min_time, MAX(ts) as max_time FROM demo.meters;"])
    ∧ dictGet c3_cx_result "performance" = Option.none
    ∧ dictGet c3_cx_result "statistics" = Option.none
    ∧ dictGet c3_cx_result "analysis_status" = some (.str "failed")
    ∧ dictGet c3_cx_result "error" = some (.str "performance query boom") :=
  ⟨rfl, rfl, rfl, rfl, rfl⟩

/-- C3 amended: failures in the guarded sub-steps (tag describe, sample
data, recent activity, tag distribution) are recorded as
`{"error": message}` under the step's section with execution
continuing, while a failure in an unguarded step (schema, performance,
statistics, integrity) escapes the sequence; `analysis_status` is
`"completed"` exactly when no exception escapes and `"failed"` exactly
when one does, with the already-collected sections kept either way.  In
particular, when the tag-describe sub-step raises but schema-describe
succeeds, the report has a populated `schema` section, a `tags` section
equal to `{"error": message}`, and `analysis_status = "completed"`. -/
theorem c3_comprehensive_amended :
    (comprehensive_stable_analysis c3_tags_fail_driver "demo" Option.none
        "meters" true (some 7) "2024-01-01 00:00:00" "2024-01-08 00:00:00" []
      = (Except.ok c3_scenario_result, c3_scenario_trace)
      ∧ dictGet c3_scenario_result "schema"
        = some (.dict [(.str "columns",
            .list [.list [.str "ts", .str "TIMESTAMP", .int 8, .str ""],
                   .list [.str "v", .str "FLOAT", .int 4, .str ""]]),
          (.str "column_count", .int 2)])
      ∧ dictGet c3_scenario_result "tags"
        = some (.dict [(.str "error",
            .str "Could not retrieve tag info: Fetch tags failed")])
      ∧ dictGet c3_scenario_result "analysis_status"
        = some (.str "completed"))
    ∧ (∀ (d : Driver) (cfg : String) (db_name : Option String)
        (stable_name : String) (inc : Bool) (db : Option Int)
        (ss es : String) (log : List String)
        (res : List (String × PyObj)) (l : List String),
        comp_steps d cfg (resolveDb cfg db_name) stable_name inc db ss es
            (comprehensive_base stable_name (resolveDb cfg db_name)) log
          = (Except.ok res, l) →
        comprehensive_stable_analysis d cfg db_name stable_name inc db ss es log
          = (Except.ok (dictSet res "analysis_status" (.str "completed")), l))
    ∧ (∀ (d : Driver) (cfg : String) (db_name : Option String)
        (stable_name : String) (inc : Bool) (db : Option Int)
        (ss es : String) (log : List String)
        (par : List (String × PyObj)) (e : String) (l : List String),
        comp_steps d cfg (resolveDb cfg db_name) stable_name inc db ss es
            (comprehensive_base stable_name (resolveDb cfg db_name)) log
          = (Except.error (par, e), l) →
        comprehensive_stable_analysis d cfg db_name stable_name inc db ss es log
          = (Except.ok (dictSet (dictSet par "analysis_status" (.str "failed"))
              "error" (.str e)), l)) := by
  refine ⟨⟨rfl, rfl, rfl, rfl⟩, ?_, ?_⟩
  · intro d cfg db_name stable_name inc db ss es log res l h
    simp only [comprehensive_stable_analysis]
    rw [h]
  · intro d cfg db_name stable_name inc db ss es log par e l h
    simp only [comprehensive_stable_analysis]
    rw [h]

/-- Witness for the quantified parts of `c3_comprehensive_amended`,
discharging the step-sequence hypotheses at the two concrete scenario
drivers. -/
theorem c3_comprehensive_amended_witness :
    comprehensive_stable_analysis c3_tags_fail_driver "demo" Option.none
        "meters" true (some 7) "2024-01-01 00:00:00" "2024-01-08 00:00:00" []
      = (Except.ok (dictSet c3_steps_result "analysis_status"
          (.str "completed")), c3_scenario_trace)
    ∧ comprehensive_stable_analysis c3_perf_fail_driver "demo" Option.none
        "meters" true (some 7) "2024-01-01 00:00:00" "2024-01-08 00:00:00" []
      = (Except.ok (dictSet (dictSet
          [("stable_name", PyObj.str "meters"),
           ("database_name", .str "demo"),
           ("analysis_timestamp", .str "NOW()"),
           ("schema", .dict [(.str "columns",
                .list [.list [.str "ts", .str "TIMESTAMP", .int 8, .str ""],
                       .list [.str "v", .str "FLOAT", .int 4, .str ""]]),
              (.str "column_count", .int 2)]),
           ("tags", .dict [(.str "tag_columns",
                .list [.list [.str "location", .str "VARCHAR", .int 24]]),
              (.str "tag_count", .int 1)])]
          "analysis_status" (.str "failed")) "error"
          (.str "performance query boom")),
         ["DESCRIBE demo.meters;", "SHOW TAGS FROM demo.meters;",
          "SELECT MIN(ts) as min_time, MAX(ts) as max_time FROM demo.meters;"]) :=
  ⟨c3_comprehensive_amended.2.1 c3_tags_fail_driver "demo" Option.none
      "meters" true (some 7) "2024-01-01 00:00:00" "2024-01-08 00:00:00" []
      c3_steps_result c3_scenario_trace rfl,
   c3_comprehensive_amended.2.2 c3_perf_fail_driver "demo" Option.none
      "meters" true (some 7) "2024-01-01 00:00:00" "2024-01-08 00:00:00" []
      [("stable_name", PyObj.str "meters"),
       ("database_name", .str "demo"),
       ("analysis_timestamp", .str "NOW()"),
       ("schema", .dict [(.str "columns",
            .list [.list [.str "ts", .str "TIMESTAMP", .int 8, .str ""],
                   .list [.str "v", .str "FLOAT", .int 4, .str ""]]),
          (.str "column_count", .int 2)]),
       ("tags", .dict [(.str "tag_columns",
            .list [.list [.str "location", .str "VARCHAR", .int 24]]),
          (.str "tag_count", .int 1)])]
      "performance query boom"
      ["DESCRIBE demo.meters;", "SHOW TAGS FROM demo.meters;",
       "SELECT MIN(ts) as min_time, MAX(ts) as max_time FROM demo.meters;"]
      rfl⟩

/-- C4: the dashboard composite issues its sub-queries in the fixed
order (interval avg, max, min; whole-window avg, count; latest value;
then the tag distribution when a grouping tag is given); a run in which
every sub-query succeeds reports `status = "success"` with every
section present, a run whose second sub-query raises stops there and
reports `status = "error"` with the message and the partial results
still attached (no per-step isolation); in general the report is the
step-sequence outcome with `status = "success"` appended on a normal
exit and `status = "error"` plus the message appended when any
sub-query raises. -/
theorem c4_dashboard_composite :
    (time_series_dashboard_data allOkDriver "demo" Option.none "sensors"
        "temp" 24 60 (some "device")
        "2024-01-01 00:00:00" "2024-01-02 00:00:00" []
      = (Except.ok c4_ok_result,
         [c4_stmt_avg, c4_stmt_max, c4_stmt_min, c4_stmt_oavg,
          c4_stmt_ocount, c4_stmt_latest, c4_stmt_tags]))
    ∧ (time_series_dashboard_data c4_max_fail_driver "demo" Option.none
        "sensors" "temp" 24 60 (some "device")
        "2024-01-01 00:00:00" "2024-01-02 00:00:00" []
      = (Except.ok c4_fail_result, [c4_stmt_avg, c4_stmt_max]))
    ∧ (∀ (d : Driver) (cfg : String) (db_name : Option String)
        (stable_name metric_column : String) (trh im : Int)
        (gbt : Option String) (ss es : String) (log : List String)
        (res : List (String × PyObj)) (l : List String),
        dash_steps d cfg (resolveDb cfg db_name) stable_name metric_column
            im gbt ss es
            (dashboard_base stable_name metric_column im gbt ss es) log
          = (Except.ok res, l) →
        time_series_dashboard_data d cfg db_name stable_name metric_column
            trh im gbt ss es log
          = (Except.ok (dictSet res "status" (.str "success")), l))
    ∧ (∀ (d : Driver) (cfg : String) (db_name : Option String)
        (stable_name metric_column : String) (trh im : Int)
        (gbt : Option String) (ss es : String) (log : List String)
        (par : List (String × PyObj)) (e : String) (l : List String),
        dash_steps d cfg (resolveDb cfg db_name) stable_name metric_column
            im gbt ss es
            (dashboard_base stable_name metric_column im gbt ss es) log
          = (Except.error (par, e), l) →
        time_series_dashboard_data d cfg db_name stable_name metric_column
            trh im gbt ss es log
          = (Except.ok (dictSet (dictSet par "status" (.str "error"))
              "error" (.str e)), l)) := by
  refine ⟨rfl, rfl, ?_, ?_⟩
  · intro d cfg db_name stable_name metric_column trh im gbt ss es log res l h
    simp only [time_series_dashboard_data]
    rw [h]
  · intro d cfg db_name stable_name metric_column trh im gbt ss es log par e l h
    simp only [time_series_dashboard_data]
    rw [h]

/-- Witness for the quantified parts of `c4_dashboard_composite`,
discharging the step-sequence hypotheses at the two concrete drivers. -/
theorem c4_dashboard_composite_witness :
    time_series_dashboard_data allOkDriver "demo" Option.none "sensors"
        "temp" 24 60 (some "device")
        "2024-01-01 00:00:00" "2024-01-02 00:00:00" []
      = (Except.ok (dictSet (c4_ok_result.dropLast) "status" (.str "success")),
         [c4_stmt_avg, c4_stmt_max, c4_stmt_min, c4_stmt_oavg,
          c4_stmt_ocount, c4_stmt_latest, c4_stmt_tags])
    ∧ time_series_dashboard_data c4_max_fail_driver "demo" Option.none
        "sensors" "temp" 24 60 (some "device")
        "2024-01-01 00:00:00" "2024-01-02 00:00:00" []
      = (Except.ok (dictSet (dictSet c4_steps_partial "status" (.str "error"))
          "error" (.str "max query boom")),
         [c4_stmt_avg, c4_stmt_max]) :=
  ⟨c4_dashboard_composite.2.2.1 allOkDriver "demo" Option.none "sensors"
      "temp" 24 60 (some "device")
      "2024-01-01 00:00:00" "2024-01-02 00:00:00" []
      c4_ok_result.dropLast
      [c4_stmt_avg, c4_stmt_max, c4_stmt_min, c4_stmt_oavg,
       c4_stmt_ocount, c4_stmt_latest, c4_stmt_tags] rfl,
   c4_dashboard_composite.2.2.2 c4_max_fail_driver "demo" Option.none
      "sensors" "temp" 24 60 (some "device")
      "2024-01-01 00:00:00" "2024-01-02 00:00:00" []
      c4_steps_partial "max query boom" [c4_stmt_avg, c4_stmt_max] rfl⟩

end TdengineMcp
